import Mathlib

/-
Shallow embedding of `src/src/data_structures.rs` from the poly-commit
repository: the metadata wrapper types `LabeledPolynomial` and
`LabeledCommitment`, the `Cow`-based dual storage mode, and the
`PCCommitment` capability contract with its byte serialization.
-/

namespace PolyCommit

/-- Model of `std::borrow::Cow`: a value that is either owned outright or
borrowed from a longer-lived owner.  In a pure embedding the borrowed arm
carries the referenced value itself. -/
inductive Cow (α : Type) where
  | Owned : α → Cow α
  | Borrowed : α → Cow α
deriving DecidableEq, Repr

/-- Dereferencing a `Cow` yields the underlying value, whichever storage
mode is active (Rust's `Deref for Cow`). -/
def Cow.get {α : Type} : Cow α → α
  | .Owned a => a
  | .Borrowed a => a

/-- Dense polynomial over a field, as a list of coefficients, lowest degree
first.  The polynomial type itself is `ff_fft::DensePolynomial`, an external
substrate of this crate; this representation is the standard one for a dense
polynomial. -/
structure DensePolynomial (F : Type) [Field F] where
  coeffs : List F
deriving DecidableEq

/-- Modelled from the spec: polynomial evaluation is part of the external
field/polynomial arithmetic substrate ("evaluates the underlying polynomial
at `point` using the field's arithmetic; pure function, deterministic").
Standard Horner evaluation of the coefficient list. -/
def DensePolynomial.evaluate {F : Type} [Field F] (p : DensePolynomial F) (x : F) : F :=
  p.coeffs.foldr (fun c acc => c + x * acc) 0

/-- `LabeledPolynomial` from `data_structures.rs` lines 69-75: a polynomial
with a label, an optional degree bound, and an optional hiding bound.  The
polynomial is stored behind a `Cow`, so it is either owned or borrowed. -/
structure LabeledPolynomial (F : Type) [Field F] where
  label : String
  polynomial : Cow (DensePolynomial F)
  degree_bound : Option Nat
  hiding_bound : Option Nat

/-- `impl Deref for LabeledPolynomial` (lines 77-83): dereferencing yields
the wrapped polynomial through the `Cow`. -/
def LabeledPolynomial.deref {F : Type} [Field F] (p : LabeledPolynomial F) :
    DensePolynomial F :=
  p.polynomial.get

/-- `LabeledPolynomial::new_owned` (lines 87-99): construct by consuming the
polynomial; stores `Cow::Owned`. -/
def LabeledPolynomial.new_owned {F : Type} [Field F] (label : String)
    (polynomial : DensePolynomial F) (degree_bound hiding_bound : Option Nat) :
    LabeledPolynomial F :=
  { label := label
    polynomial := Cow.Owned polynomial
    degree_bound := degree_bound
    hiding_bound := hiding_bound }

/-- `LabeledPolynomial::new` (lines 102-114): construct from a reference;
stores `Cow::Borrowed`. -/
def LabeledPolynomial.new {F : Type} [Field F] (label : String)
    (polynomial : DensePolynomial F) (degree_bound hiding_bound : Option Nat) :
    LabeledPolynomial F :=
  { label := label
    polynomial := Cow.Borrowed polynomial
    degree_bound := degree_bound
    hiding_bound := hiding_bound }

/-- `LabeledPolynomial::polynomial` (lines 122-124): the accessor returning
a view of the wrapped polynomial regardless of storage mode.  Named with a
prime because the structure field `polynomial` already takes the source's
field name. -/
def LabeledPolynomial.polynomial' {F : Type} [Field F] (p : LabeledPolynomial F) :
    DensePolynomial F :=
  p.polynomial.get

/-- `LabeledPolynomial::evaluate` (lines 127-129): delegates to the wrapped
polynomial's evaluation. -/
def LabeledPolynomial.evaluate {F : Type} [Field F] (p : LabeledPolynomial F)
    (point : F) : F :=
  p.polynomial.get.evaluate point

/-- `LabeledPolynomial::is_hiding` (lines 137-139): `hiding_bound.is_some()`. -/
def LabeledPolynomial.is_hiding {F : Type} [Field F] (p : LabeledPolynomial F) :
    Bool :=
  p.hiding_bound.isSome

/-- The `PCCommitment` trait (lines 37-46) bundled with its `ToBytes`
super-trait: `empty`, `has_degree_bound`, `size_in_bytes`, and `write`, the
byte encoding produced by serializing a commitment to a byte sink. -/
structure PCCommitment (C : Type) where
  empty : C
  has_degree_bound : C → Bool
  size_in_bytes : C → Nat
  write : C → List UInt8

/-- `LabeledCommitment` (lines 148-153): a commitment with a label and an
optional degree bound. -/
structure LabeledCommitment (C : Type) where
  label : String
  commitment : C
  degree_bound : Option Nat

/-- `LabeledCommitment::new` (lines 157-163): wraps an already-computed
commitment; no validation is performed. -/
def LabeledCommitment.new {C : Type} (label : String) (commitment : C)
    (degree_bound : Option Nat) : LabeledCommitment C :=
  { label := label
    commitment := commitment
    degree_bound := degree_bound }

/-- `impl ToBytes for LabeledCommitment` (lines 181-186): serializing a
labeled commitment writes exactly the wrapped commitment's bytes. -/
def LabeledCommitment.write {C : Type} (ops : PCCommitment C)
    (lc : LabeledCommitment C) : List UInt8 :=
  ops.write lc.commitment

/-- A concrete commitment type with a nontrivial multi-byte encoding, used
to witness the serialization claims on actual bytes: a pair of bytes
serialized in order. -/
def bytePair : PCCommitment (UInt8 × UInt8) :=
  { empty := (0, 0)
    has_degree_bound := fun _ => false
    size_in_bytes := fun _ => 2
    write := fun c => [c.1, c.2] }

end PolyCommit

namespace PolyCommit

/-- C1: for every commitment `c`, label `l`, and degree bound `b`,
serializing `LabeledCommitment::new(l, c, b)` to a byte sink produces
byte-for-byte exactly the bytes that serializing `c` alone produces; the
label and the degree bound are never written.  Stated for every commitment
type and every byte encoding, and additionally checked on the concrete
multi-byte `bytePair` encoding. -/
theorem labeledCommitment_write_eq_commitment_write {C : Type}
    (ops : PCCommitment C) (l : String) (c : C) (b : Option Nat) :
    (LabeledCommitment.new l c b).write ops = ops.write c ∧
    (LabeledCommitment.new "lbl" ((3 : UInt8), (7 : UInt8)) (some 5)).write bytePair =
      bytePair.write ((3 : UInt8), (7 : UInt8)) := by
  exact ⟨rfl, rfl⟩

/-- C2: the owned constructor `new_owned` and the borrowed constructor `new`
are observationally equivalent: `polynomial'`, `evaluate` at every point,
`degree_bound`, `hiding_bound`, `label`, and `is_hiding` agree on the two
results. -/
theorem new_owned_new_observationally_equivalent {F : Type} [Field F]
    (l : String) (p : DensePolynomial F) (db hb : Option Nat) (x : F) :
    (LabeledPolynomial.new_owned l p db hb).polynomial' =
      (LabeledPolynomial.new l p db hb).polynomial' ∧
    (LabeledPolynomial.new_owned l p db hb).evaluate x =
      (LabeledPolynomial.new l p db hb).evaluate x ∧
    (LabeledPolynomial.new_owned l p db hb).degree_bound =
      (LabeledPolynomial.new l p db hb).degree_bound ∧
    (LabeledPolynomial.new_owned l p db hb).hiding_bound =
      (LabeledPolynomial.new l p db hb).hiding_bound ∧
    (LabeledPolynomial.new_owned l p db hb).label =
      (LabeledPolynomial.new l p db hb).label ∧
    (LabeledPolynomial.new_owned l p db hb).is_hiding =
      (LabeledPolynomial.new l p db hb).is_hiding := by
  exact ⟨rfl, rfl, rfl, rfl, rfl, rfl⟩

/-- C3: for every `LabeledPolynomial`, `is_hiding` is `true` exactly when
`hiding_bound` is present; in particular this holds for every combination of
constructor arguments of both constructors, and read operations do not
disturb it (values are immutable). -/
theorem is_hiding_iff_hiding_bound_isSome {F : Type} [Field F]
    (lp : LabeledPolynomial F) (l : String) (p : DensePolynomial F)
    (db hb : Option Nat) :
    (lp.is_hiding = lp.hiding_bound.isSome) ∧
    ((LabeledPolynomial.new_owned l p db hb).is_hiding = hb.isSome) ∧
    ((LabeledPolynomial.new l p db hb).is_hiding = hb.isSome) := by
  exact ⟨rfl, rfl, rfl⟩

/-- C4: wrapping a polynomial with `new_owned` never changes its evaluation:
the labeled polynomial evaluates at every point to exactly what the raw
polynomial evaluates to. -/
theorem new_owned_evaluate_eq_polynomial_evaluate {F : Type} [Field F]
    (l : String) (p : DensePolynomial F) (db hb : Option Nat) (x : F) :
    (LabeledPolynomial.new_owned l p db hb).evaluate x = p.evaluate x := by
  rfl

/-- C5: dereferencing a `LabeledPolynomial` yields the same polynomial value
as the `polynomial'` accessor, so every read operation applied through the
dereference gives the same result as applying it to the wrapped polynomial
directly. -/
theorem deref_eq_polynomial_accessor {F : Type} [Field F]
    (lp : LabeledPolynomial F) {α : Type} (f : DensePolynomial F → α) :
    lp.deref = lp.polynomial' ∧ f lp.deref = f lp.polynomial' := by
  exact ⟨rfl, rfl⟩

/-- C6: for both constructors, `label` returns exactly the string supplied
at construction; read operations are pure, so the label of the (immutable)
value is unchanged by them — stated here alongside the reads themselves. -/
theorem label_returns_construction_string {F : Type} [Field F]
    (l : String) (p : DensePolynomial F) (db hb : Option Nat) (x : F) :
    ((LabeledPolynomial.new_owned l p db hb).label = l) ∧
    ((LabeledPolynomial.new l p db hb).label = l) ∧
    ((LabeledPolynomial.new_owned l p db hb).evaluate x =
        (LabeledPolynomial.new_owned l p db hb).evaluate x ∧
      (LabeledPolynomial.new_owned l p db hb).label = l) := by
  exact ⟨rfl, rfl, rfl, rfl⟩

/-- C7: `LabeledCommitment::new(l, c, b)` is a total construction performing
no validation, and afterwards `label` returns exactly `l`, `commitment`
returns exactly `c`, and `degree_bound` returns exactly `b`. -/
theorem labeledCommitment_new_accessors {C : Type} (l : String) (c : C)
    (b : Option Nat) :
    (LabeledCommitment.new l c b).label = l ∧
    (LabeledCommitment.new l c b).commitment = c ∧
    (LabeledCommitment.new l c b).degree_bound = b := by
  exact ⟨rfl, rfl, rfl⟩

/-- C8: every operation of the layer is total over well-typed inputs: both
constructions of `LabeledPolynomial`, the construction of
`LabeledCommitment`, every accessor, and `evaluate` at any field element all
produce a result (no operation is modelled with `Option`/`Except`; none can
fail). -/
theorem operations_total {F : Type} [Field F] {C : Type}
    (l : String) (p : DensePolynomial F) (db hb : Option Nat) (x : F)
    (ops : PCCommitment C) (c : C) (b : Option Nat) :
    (∃ lp : LabeledPolynomial F, lp = LabeledPolynomial.new_owned l p db hb) ∧
    (∃ lp : LabeledPolynomial F, lp = LabeledPolynomial.new l p db hb) ∧
    (∃ s : String, (LabeledPolynomial.new_owned l p db hb).label = s) ∧
    (∃ q : DensePolynomial F, (LabeledPolynomial.new_owned l p db hb).polynomial' = q) ∧
    (∃ v : F, (LabeledPolynomial.new_owned l p db hb).evaluate x = v) ∧
    (∃ d : Option Nat, (LabeledPolynomial.new_owned l p db hb).degree_bound = d) ∧
    (∃ h : Option Nat, (LabeledPolynomial.new_owned l p db hb).hiding_bound = h) ∧
    (∃ t : Bool, (LabeledPolynomial.new_owned l p db hb).is_hiding = t) ∧
    (∃ lc : LabeledCommitment C, lc = LabeledCommitment.new l c b) ∧
    (∃ s : String, (LabeledCommitment.new l c b).label = s) ∧
    (∃ c2 : C, (LabeledCommitment.new l c b).commitment = c2) ∧
    (∃ d : Option Nat, (LabeledCommitment.new l c b).degree_bound = d) ∧
    (∃ bs : List UInt8, (LabeledCommitment.new l c b).write ops = bs) := by
  exact ⟨⟨_, rfl⟩, ⟨_, rfl⟩, ⟨_, rfl⟩, ⟨_, rfl⟩, ⟨_, rfl⟩, ⟨_, rfl⟩, ⟨_, rfl⟩,
    ⟨_, rfl⟩, ⟨_, rfl⟩, ⟨_, rfl⟩, ⟨_, rfl⟩, ⟨_, rfl⟩, ⟨_, rfl⟩⟩

/-- C9: the scenario `new_owned "p1" (coefficients [1,2,3]) (some 2) none`
over the rationals yields `degree_bound = some 2`, `is_hiding = false`, and
`evaluate 1 = 6`. -/
theorem scenario_p1_coeffs_123 :
    (LabeledPolynomial.new_owned "p1"
        (DensePolynomial.mk ([1, 2, 3] : List ℚ)) (some 2) none).degree_bound =
      some 2 ∧
    (LabeledPolynomial.new_owned "p1"
        (DensePolynomial.mk ([1, 2, 3] : List ℚ)) (some 2) none).is_hiding =
      false ∧
    (LabeledPolynomial.new_owned "p1"
        (DensePolynomial.mk ([1, 2, 3] : List ℚ)) (some 2) none).evaluate 1 =
      6 := by
  refine ⟨rfl, rfl, ?_⟩
  show (1 : ℚ) + 1 * (2 + 1 * (3 + 1 * 0)) = 6
  norm_num

/-- C10: `evaluate` is independent of the metadata: for every polynomial,
every point, and any two choices of label, degree bound, and hiding bound —
under either constructor — the two wrappers return the same evaluation. -/
theorem evaluate_independent_of_metadata {F : Type} [Field F]
    (p : DensePolynomial F) (x : F) (l₁ l₂ : String)
    (db₁ db₂ hb₁ hb₂ : Option Nat) :
    (LabeledPolynomial.new_owned l₁ p db₁ hb₁).evaluate x =
      (LabeledPolynomial.new_owned l₂ p db₂ hb₂).evaluate x ∧
    (LabeledPolynomial.new l₁ p db₁ hb₁).evaluate x =
      (LabeledPolynomial.new l₂ p db₂ hb₂).evaluate x ∧
    (LabeledPolynomial.new_owned l₁ p db₁ hb₁).evaluate x =
      (LabeledPolynomial.new l₂ p db₂ hb₂).evaluate x := by
  exact ⟨rfl, rfl, rfl⟩

end PolyCommit
